import Mathlib

/-!
Shallow embedding of the Taskly front-end client:
the generic HTTP request wrapper (`src/api/http.js`), the hash-based view
router and the two view initializers (`src/routes/route.js`), and the
registration service (`src/services/userService.js`).

External platform behaviour (fetch responses, the DOM, the browser's HTML
parser) is modelled by explicit data: a fetch response is a record of its
status, content-type header and JSON-parse result; the DOM state touched by
the initializers is a record of element presence and content.
-/

/-- A JSON payload as the wrapper observes it: the `request` function only
inspects the optional `message` and `error` fields of the parsed body.
A field that is absent (or JSON `null`/`undefined`) is `none`. -/
structure Payload where
  message : Option String := none
  error : Option String := none
deriving Repr, DecidableEq

/-- A fetch response as `request` observes it: the numeric status, the
`content-type` header (`none` when the header is absent), and the result of
`res.json()` (`none` models a JSON parse failure, which the code catches
and maps to a null payload). -/
structure HttpResponse where
  status : Nat
  contentType : Option String := none
  jsonResult : Option Payload := none
deriving Repr, DecidableEq

/-- `res.ok` in the fetch API: status in the inclusive range 200–299. -/
def HttpResponse.ok (r : HttpResponse) : Bool :=
  200 ≤ r.status && r.status < 300

/-- JavaScript `String.prototype.includes`: substring containment, over the
underlying character lists. -/
def containsSubstring (s pat : String) : Bool :=
  (List.range (s.data.length + 1)).any (fun i => pat.data.isPrefixOf (s.data.drop i))

/-- JavaScript `a || b` where `a` is a possibly-undefined string: an
undefined or empty (falsy) string falls through to `b`. -/
def jsOrString (a : Option String) (b : String) : String :=
  match a with
  | some s => if s = "" then b else s
  | none => b

/-- `res.headers.get('content-type')?.includes('application/json')` from
`request` in `src/api/http.js`. -/
def responseIsJSON (res : HttpResponse) : Bool :=
  match res.contentType with
  | some ct => containsSubstring ct "application/json"
  | none => false

/-- `const payload = isJSON ? await res.json().catch(() => null) : null`
from `request`: the payload is the JSON parse result when the content-type
indicates JSON, and null otherwise (a parse failure is caught to null). -/
def responsePayload (res : HttpResponse) : Option Payload :=
  if responseIsJSON res then res.jsonResult else none

/-- The response-handling half of `request` in `src/api/http.js`: on a
non-ok status throw `payload?.message || payload?.error || 'HTTP <status>'`
(JavaScript `||`, so falsy fields fall through); on an ok status return the
payload. -/
def request (res : HttpResponse) : Except String (Option Payload) :=
  let payload := responsePayload res
  if res.ok then
    .ok payload
  else
    .error (jsOrString (payload.bind Payload.message)
      (jsOrString (payload.bind Payload.error) ("HTTP " ++ toString res.status)))

/-- The request-side options object of `request`: each field is `none` when
the corresponding key is absent/undefined. `request` destructures it with
defaults `method = 'GET'`, `headers = {}`. -/
structure RequestOpts where
  method : Option String := none
  headers : Option (List (String × String)) := none
  body : Option String := none
deriving Repr, DecidableEq

/-- JavaScript object spread `{ ...base, ...over }`: a key present in
`over` overrides the one in `base`. -/
def RequestOpts.spread (base over : RequestOpts) : RequestOpts where
  method := over.method.elim base.method some
  headers := over.headers.elim base.headers some
  body := over.body.elim base.body some

/-- The fetch call `request` issues: URL `BASE_URL + path`, the method
defaulted to GET, a JSON content-type header merged before caller headers
(later entries override), and the body when one is provided. -/
structure FetchRequest where
  path : String
  method : String
  headers : List (String × String)
  body : Option String
deriving Repr, DecidableEq

/-- The request-building half of `request` in `src/api/http.js`. -/
def buildRequest (path : String) (opts : RequestOpts) : FetchRequest where
  path := path
  method := opts.method.getD "GET"
  headers := ("Content-Type", "application/json") :: opts.headers.getD []
  body := opts.body

/-- `http.get` from `src/api/http.js`:
`(path, opts) => request(path, { method: 'GET', ...opts })`. -/
def httpGet (path : String) (opts : RequestOpts) : FetchRequest :=
  buildRequest path (RequestOpts.spread { method := some "GET" } opts)

/-- `http.post` from `src/api/http.js`:
`(path, body, opts) => request(path, { method: 'POST', body, ...opts })`. -/
def httpPost (path : String) (body : Option String) (opts : RequestOpts) : FetchRequest :=
  buildRequest path (RequestOpts.spread { method := some "POST", body := body } opts)

/-- `http.put` from `src/api/http.js`:
`(path, body, opts) => request(path, { method: 'PUT', body, ...opts })`. -/
def httpPut (path : String) (body : Option String) (opts : RequestOpts) : FetchRequest :=
  buildRequest path (RequestOpts.spread { method := some "PUT", body := body } opts)

/-- `http.del` from `src/api/http.js`:
`(path, opts) => request(path, { method: 'DELETE', ...opts })`. -/
def httpDel (path : String) (opts : RequestOpts) : FetchRequest :=
  buildRequest path (RequestOpts.spread { method := some "DELETE" } opts)

def exceptDecEq {ε α : Type} [DecidableEq ε] [DecidableEq α] :
    DecidableEq (Except ε α)
  | .error a, .error b => decidable_of_iff (a = b) (by simp)
  | .error _, .ok _ => isFalse (by simp)
  | .ok _, .error _ => isFalse (by simp)
  | .ok a, .ok b => decidable_of_iff (a = b) (by simp)

instance {ε α : Type} [DecidableEq ε] [DecidableEq α] : DecidableEq (Except ε α) :=
  exceptDecEq

/-! ## Router (`src/routes/route.js`) -/

/-- JavaScript `String.prototype.trim`: strip leading and trailing
whitespace, over the character lists. -/
def strTrim (s : String) : String :=
  ⟨((s.data.dropWhile Char.isWhitespace).reverse.dropWhile Char.isWhitespace).reverse⟩

/-- JavaScript `hash.startsWith('#/')`, over the character lists. -/
def strStartsWith (s pre : String) : Bool :=
  pre.data.isPrefixOf s.data

/-- JavaScript `hash.slice(n)`, over the character lists. -/
def strSlice (s : String) (n : Nat) : String :=
  ⟨s.data.drop n⟩

/-- `location.hash.startsWith('#/') ? location.hash.slice(2) : ''` from
`handleRoute` in `src/routes/route.js`. -/
def rawPath (hash : String) : String :=
  if strStartsWith hash "#/" then strSlice hash 2 else ""

/-- `(… ) || 'home'` applied to the stripped path in `handleRoute`: the
empty (falsy) string defaults to `home`. -/
def requestedView (hash : String) : String :=
  if rawPath hash = "" then "home" else rawPath hash

/-- The view-name resolution of `handleRoute`:
`known.includes(path) ? path : 'home'` with `known = ['home', 'board']`. -/
def resolveView (hash : String) : String :=
  if ["home", "board"].contains (requestedView hash) then requestedView hash
  else "home"

/-- The observable outcome of a successful `loadView`: the markup injected
into the `app` container, and which view initializers ran. -/
structure ViewLoad where
  containerHTML : String
  ranInitHome : Bool
  ranInitBoard : Bool
deriving Repr, DecidableEq

/-- `loadView` in `src/routes/route.js`: fetch the view's markup (`views`
maps a view name to its fetched markup, `none` modelling a non-ok fetch
status), throw `Failed to load view: <name>` on a failed fetch, otherwise
inject the markup into the container and run `initHome` when the name is
`home` and `initBoard` when it is `board`. -/
def loadView (views : String → Option String) (name : String) :
    Except String ViewLoad :=
  match views name with
  | none => .error ("Failed to load view: " ++ name)
  | some html =>
      .ok { containerHTML := html
            ranInitHome := name == "home"
            ranInitBoard := name == "board" }

/-- `handleRoute` in `src/routes/route.js`: resolve the location hash to a
view name and load that view. -/
def handleRoute (views : String → Option String) (hash : String) :
    Except String ViewLoad :=
  loadView views (resolveView hash)

/-! ## Home view: registration form (`initHome` in `src/routes/route.js`,
`registerUser` in `src/services/userService.js`) -/

/-- The six registration form field values read by the submit handler. -/
structure RegisterFields where
  firstName : String
  lastName : String
  age : String
  email : String
  password : String
  confirmPassword : String
deriving Repr, DecidableEq

/-- `.trim()` applied to each field, as the submit handler does. -/
def RegisterFields.trimAll (f : RegisterFields) : RegisterFields where
  firstName := strTrim f.firstName
  lastName := strTrim f.lastName
  age := strTrim f.age
  email := strTrim f.email
  password := strTrim f.password
  confirmPassword := strTrim f.confirmPassword

/-- The state the home-view submit handler observes and mutates: the inline
message paragraph, the submit button's disabled flag, the list of
registration requests sent so far (each `registerUser` call appends one),
the current location hash, and the redirect scheduled by `setTimeout`
(none when no redirect is pending). -/
structure HomeState where
  msg : String
  submitDisabled : Bool
  requests : List RegisterFields
  hash : String
  pendingHash : Option String
deriving Repr, DecidableEq

/-- The submit handler installed by `initHome` in `src/routes/route.js`.
`api` is the awaited outcome of `registerUser` (which forwards to
`http.post('/api/v1/users', …)`): it either resolves with a payload or
rejects with an error message. The handler clears the message, trims the
six fields, rejects blank first name or password with a localized message,
otherwise disables the submit button, calls `registerUser`, on success
shows `Registro exitoso` and schedules a redirect to `#/board`, on failure
shows `No se pudo registrar: <message>`, and finally re-enables the submit
button. -/
def submitHome (api : RegisterFields → Except String (Option Payload))
    (fields : RegisterFields) (st : HomeState) : HomeState :=
  let st := { st with msg := "" }
  let t := fields.trimAll
  if t.firstName = "" || t.password = "" then
    { st with msg := "Por favor completa usuario y contraseña." }
  else
    let st := { st with submitDisabled := true, requests := st.requests ++ [t] }
    let st :=
      match api t with
      | .ok _ =>
          { st with msg := "Registro exitoso", pendingHash := some "#/board" }
      | .error m =>
          { st with msg := "No se pudo registrar: " ++ m }
    { st with submitDisabled := false }

/-- `registerUser` in `src/services/userService.js` composed with the
response-handling half of the HTTP wrapper: the call resolves or rejects
exactly as `request` does on the backend's response. -/
def registerUserOutcome (res : HttpResponse) : Except String (Option Payload) :=
  request res

/-! ## DOM presence and the view initializers -/

/-- Presence of the DOM elements the two initializers look up by id. -/
structure Dom where
  registerForm : Bool
  username : Bool
  lastNameEl : Bool
  ageEl : Bool
  emailEl : Bool
  passwordEl : Bool
  confirmPasswordEl : Bool
  registerMsg : Bool
  todoForm : Bool
  newTodo : Bool
  todoList : Bool
deriving Repr, DecidableEq

/-- `initHome` in `src/routes/route.js`, up to handler installation: look
up the form, the six inputs and the message paragraph; if the form is
absent return without doing anything; otherwise attach the submit handler.
The returned Boolean records whether a handler was attached; the DOM is
returned unchanged — the initializer itself performs no DOM mutation and
cannot throw. -/
def initHome (d : Dom) : Except String (Dom × Bool) :=
  if !d.registerForm then .ok (d, false)
  else .ok (d, true)

/-- `initBoard` in `src/routes/route.js`, up to handler installation: look
up the todo form, the input and the list; if any is absent return without
doing anything; otherwise attach the submit and click handlers. -/
def initBoard (d : Dom) : Except String (Dom × Bool) :=
  if !d.todoForm || !d.newTodo || !d.todoList then .ok (d, false)
  else .ok (d, true)

/-! ## Board view: todo list (`initBoard` in `src/routes/route.js`) -/

/-- A `li.todo` list item as built by the add handler: the checkbox's
checked state, whether the item carries the `completed` marker class, and
the raw text interpolated into the label span (the handler writes it into
`innerHTML` unescaped, so it is markup, not text). -/
structure TodoItem where
  checked : Bool
  completed : Bool
  titleHTML : String
deriving Repr, DecidableEq

/-- The fresh item the add handler constructs: an unchecked checkbox, no
`completed` class, and the trimmed title interpolated into the markup. -/
def newTodoItem (title : String) : TodoItem where
  checked := false
  completed := false
  titleHTML := title

/-- The board state the handlers observe and mutate: the `#todoList` items
(first list element = first DOM item) and the `#newTodo` input's value. -/
structure BoardState where
  todos : List TodoItem
  inputValue : String
deriving Repr, DecidableEq

/-- The submit handler installed by `initBoard`: trim the input, do nothing
when the result is empty, otherwise prepend a fresh item and clear the
input. -/
def submitTodo (st : BoardState) : BoardState :=
  let title := strTrim st.inputValue
  if title = "" then st
  else { todos := newTodoItem title :: st.todos, inputValue := "" }

/-- A delegated click inside `#todoList`, identified by the index of the
enclosing `li.todo` (when any) and which control was hit. A click that
lands on no item's remove control or checkbox changes nothing. -/
inductive BoardClick where
  | removeBtn (i : Nat)
  | checkBox (i : Nat)
  | other
deriving Repr, DecidableEq

/-- The delegated click handler installed by `initBoard`: a click on the
remove control of item `i` runs `li.remove()`; a click on its checkbox
first lets the browser flip the checkbox's checked state, then the handler
runs `li.classList.toggle('completed', e.target.checked)`, setting the
marker to the new checked state. -/
def clickTodoList (todos : List TodoItem) (c : BoardClick) : List TodoItem :=
  match c with
  | .removeBtn i => todos.eraseIdx i
  | .checkBox i =>
      match todos[i]? with
      | none => todos
      | some t =>
          let ch := !t.checked
          todos.set i { t with checked := ch, completed := ch }
  | .other => todos

/-- The browser's HTML parsing of the interpolated template: the text
content of the resulting node tree, with tag markup consumed rather than
displayed. The second argument tracks whether the scan is inside a tag. -/
def stripTagsAux : List Char → Bool → List Char
  | [], _ => []
  | c :: cs, true => stripTagsAux cs (c != '>')
  | c :: cs, false =>
      if c == '<' then stripTagsAux cs true
      else c :: stripTagsAux cs false

/-- The `textContent` of the label span after `li.innerHTML = …` parses the
interpolated title as HTML. -/
def spanTextContent (t : TodoItem) : String :=
  ⟨stripTagsAux t.titleHTML.data false⟩

/-! ## Theorems -/

/-- C2 counterexample: a non-2xx JSON response whose payload carries a
present-but-empty `message` field and `error = "bad"` makes the wrapper
throw `bad`, not the present `message` field's value: JavaScript `||`
skips the falsy empty string. -/
theorem http_error_present_message_skipped :
    request { status := 400, contentType := some "application/json",
              jsonResult := some { message := some "", error := some "bad" } } =
      .error "bad" ∧
    request { status := 400, contentType := some "application/json",
              jsonResult := some { message := some "", error := some "bad" } } ≠
      .error "" := by
  decide

/-- C2 (amended): on a non-success status the wrapper throws the payload's
`message` field when it is present and non-empty, otherwise the `error`
field when it is present and non-empty, otherwise `HTTP <status>`. -/
theorem http_error_message (res : HttpResponse) (hok : res.ok = false) :
    (∀ p m, responsePayload res = some p → p.message = some m → m ≠ "" →
      request res = .error m) ∧
    (∀ p e, responsePayload res = some p →
      (p.message = none ∨ p.message = some "") → p.error = some e → e ≠ "" →
      request res = .error e) ∧
    ((responsePayload res = none ∨
      ∃ p, responsePayload res = some p ∧
        (p.message = none ∨ p.message = some "") ∧
        (p.error = none ∨ p.error = some "")) →
      request res = .error ("HTTP " ++ toString res.status)) := by
  refine ⟨?_, ?_, ?_⟩
  · intro p m h1 h2 h3
    simp [request, hok, h1, h2, jsOrString, h3]
  · intro p e h1 h2 h3 h4
    rcases h2 with h2 | h2 <;> simp [request, hok, h1, h2, h3, jsOrString, h4]
  · intro h
    rcases h with h | ⟨p, h1, h2 | h2, h3 | h3⟩
    · simp [request, hok, h, jsOrString]
    all_goals simp [request, hok, h1, h2, h3, jsOrString]

/-- Witness for `http_error_message`: a 404 JSON response `{error: "bad"}`
throws `bad`; a 500 non-JSON response throws `HTTP 500`. -/
theorem http_error_message_witness :
    request { status := 404, contentType := some "application/json",
              jsonResult := some { error := some "bad" } } = .error "bad" ∧
    request { status := 500, contentType := some "text/html" } =
      .error ("HTTP " ++ toString 500) :=
  ⟨(http_error_message
      { status := 404, contentType := some "application/json",
        jsonResult := some { error := some "bad" } } (by decide)).2.1
      { error := some "bad" } "bad" (by decide) (Or.inl rfl) rfl (by decide),
   (http_error_message { status := 500, contentType := some "text/html" }
      (by decide)).2.2 (Or.inl (by decide))⟩

/-- C3: on a success status the wrapper returns the JSON parse result when
the content-type indicates JSON (so `none` on a parse failure) and `none`
when it does not, never throwing. -/
theorem http_success_payload (res : HttpResponse) (hok : res.ok = true) :
    (responseIsJSON res = true → request res = .ok res.jsonResult) ∧
    (responseIsJSON res = false → request res = .ok none) := by
  constructor <;> intro h <;> simp [request, responsePayload, hok, h]

/-- Witness for `http_success_payload`: a 200 JSON response returns its
parsed payload; a 200 JSON response whose body fails to parse and a 204
non-JSON response both return null. -/
theorem http_success_payload_witness :
    request { status := 200, contentType := some "application/json",
              jsonResult := some { message := some "hi" } } =
      .ok (some { message := some "hi" }) ∧
    request { status := 200, contentType := some "application/json",
              jsonResult := none } = .ok none ∧
    request { status := 204, contentType := some "text/plain" } = .ok none :=
  ⟨(http_success_payload _ (by decide)).1 (by decide),
   (http_success_payload _ (by decide)).1 (by decide),
   (http_success_payload _ (by decide)).2 (by decide)⟩

/-- C6 counterexample: the verb shortcuts spread `...opts` after the bound
method, so an options object that itself carries a `method` key overrides
the verb — `http.post` with `{method: 'GET'}` issues GET, not POST. -/
theorem http_verbs_method_override :
    (httpPost "/p" (some "b") { method := some "GET" }).method = "GET" ∧
    (httpPost "/p" (some "b") { method := some "GET" }).method ≠ "POST" := by
  decide

/-- C6 (amended): for every path, body and options argument whose options
object does not itself carry a `method` key, `http.get`, `http.post`,
`http.put` and `http.del` issue the request with methods GET, POST, PUT and
DELETE respectively, and `http.post`/`http.put` pass the positional body
through when the options object does not carry a `body` key. -/
theorem http_verbs (path : String) (body : Option String) (opts : RequestOpts)
    (hm : opts.method = none) :
    (httpGet path opts).method = "GET" ∧
    (httpPost path body opts).method = "POST" ∧
    (httpPut path body opts).method = "PUT" ∧
    (httpDel path opts).method = "DELETE" ∧
    (httpGet path opts).path = path ∧
    (httpPost path body opts).path = path ∧
    (httpPut path body opts).path = path ∧
    (httpDel path opts).path = path ∧
    (opts.body = none →
      (httpPost path body opts).body = body ∧ (httpPut path body opts).body = body) := by
  refine ⟨?_, ?_, ?_, ?_, rfl, rfl, rfl, rfl, ?_⟩ <;>
    simp [httpGet, httpPost, httpPut, httpDel, buildRequest, RequestOpts.spread, hm]
  intro hb
  simp [hb]

/-- Witness for `http_verbs`: with an empty options object the four
shortcuts bind GET, POST, PUT, DELETE and forward the positional body. -/
theorem http_verbs_witness :
    (httpGet "/a" {}).method = "GET" ∧
    (httpPost "/a" (some "b") {}).method = "POST" ∧
    (httpPut "/a" (some "b") {}).method = "PUT" ∧
    (httpDel "/a" {}).method = "DELETE" ∧
    (httpPost "/a" (some "b") {}).body = some "b" :=
  ⟨(http_verbs "/a" (some "b") {} rfl).1,
   (http_verbs "/a" (some "b") {} rfl).2.1,
   (http_verbs "/a" (some "b") {} rfl).2.2.1,
   (http_verbs "/a" (some "b") {} rfl).2.2.2.1,
   ((http_verbs "/a" (some "b") {} rfl).2.2.2.2.2.2.2.2 rfl).1⟩

/-- C7: on any combination of present and absent elements, `initHome` and
`initBoard` return without throwing and leave the DOM unchanged; a handler
is attached exactly when the required elements are present, and running an
initializer twice behaves like running it once. -/
theorem init_partial_markup_safe (d : Dom) :
    initHome d = .ok (d, d.registerForm) ∧
    initBoard d = .ok (d, d.todoForm && d.newTodo && d.todoList) ∧
    ((initHome d).bind fun p => initHome p.1) = .ok (d, d.registerForm) ∧
    ((initBoard d).bind fun p => initBoard p.1) =
      .ok (d, d.todoForm && d.newTodo && d.todoList) := by
  refine ⟨?_, ?_, ?_, ?_⟩ <;>
    cases hr : d.registerForm <;> cases hf : d.todoForm <;>
    cases hn : d.newTodo <;> cases hl : d.todoList <;>
    simp [initHome, initBoard, hr, hf, hn, hl, Except.bind]

/-- C10: the add handler writes the trimmed title into the list item's
`innerHTML` without escaping, so the accepted title `<b>x</b>` is parsed as
markup: the label span's text content is `x`, not the title verbatim. -/
theorem todo_title_parsed_as_html :
    submitTodo { todos := [], inputValue := "<b>x</b>" } =
      { todos := [newTodoItem "<b>x</b>"], inputValue := "" } ∧
    spanTextContent (newTodoItem "<b>x</b>") = "x" ∧
    "x" ≠ "<b>x</b>" := by
  decide

/-- C4: a registration submission whose trimmed first name or trimmed
password is blank sends no request, shows the validation message, and
leaves the submit control enabled. -/
theorem register_blank_validation
    (api : RegisterFields → Except String (Option Payload))
    (fields : RegisterFields) (st : HomeState)
    (hblank : strTrim fields.firstName = "" ∨ strTrim fields.password = "")
    (hen : st.submitDisabled = false) :
    submitHome api fields st =
      { st with msg := "Por favor completa usuario y contraseña." } ∧
    (submitHome api fields st).requests = st.requests ∧
    (submitHome api fields st).submitDisabled = false := by
  have hcond : (strTrim fields.firstName = "" || strTrim fields.password = "") = true := by
    rcases hblank with h | h <;> simp [h]
  refine ⟨?_, ?_, ?_⟩ <;>
    simp [submitHome, RegisterFields.trimAll, hcond, hen]

/-- Witness for `register_blank_validation`: a submission with a
whitespace-only first name is rejected inline without a request. -/
theorem register_blank_validation_witness :
    submitHome (fun _ => .ok none)
        { firstName := "   ", lastName := "l", age := "20", email := "e",
          password := "pw", confirmPassword := "pw" }
        { msg := "", submitDisabled := false, requests := [], hash := "#/home",
          pendingHash := none } =
      { msg := "Por favor completa usuario y contraseña.", submitDisabled := false,
        requests := [], hash := "#/home", pendingHash := none } :=
  (register_blank_validation (fun _ => .ok none)
    { firstName := "   ", lastName := "l", age := "20", email := "e",
      password := "pw", confirmPassword := "pw" }
    { msg := "", submitDisabled := false, requests := [], hash := "#/home",
      pendingHash := none }
    (Or.inl (by decide)) rfl).1

/-- C8: submitting the add form with a non-blank input prepends a fresh
unchecked item carrying the trimmed title and clears the input; a blank
input leaves the board unchanged. -/
theorem todo_add (st : BoardState) :
    (strTrim st.inputValue ≠ "" →
      submitTodo st =
        { todos := newTodoItem (strTrim st.inputValue) :: st.todos, inputValue := "" } ∧
      (newTodoItem (strTrim st.inputValue)).checked = false ∧
      (newTodoItem (strTrim st.inputValue)).completed = false ∧
      (newTodoItem (strTrim st.inputValue)).titleHTML = strTrim st.inputValue) ∧
    (strTrim st.inputValue = "" → submitTodo st = st) := by
  constructor <;> intro h <;> simp [submitTodo, newTodoItem, h]

/-- Witness for `todo_add`: adding `"  Buy milk  "` prepends the trimmed
unchecked item and clears the input; a whitespace-only input is ignored. -/
theorem todo_add_witness :
    submitTodo { todos := [newTodoItem "old"], inputValue := "  Buy milk  " } =
      { todos := [newTodoItem "Buy milk", newTodoItem "old"], inputValue := "" } ∧
    submitTodo { todos := [newTodoItem "old"], inputValue := "   " } =
      { todos := [newTodoItem "old"], inputValue := "   " } := by
  refine ⟨?_, ?_⟩
  · have h := (todo_add { todos := [newTodoItem "old"], inputValue := "  Buy milk  " }).1
      (by decide)
    have hts : strTrim "  Buy milk  " = "Buy milk" := by decide
    simpa [hts] using h.1
  · exact (todo_add { todos := [newTodoItem "old"], inputValue := "   " }).2 (by decide)

/-- C5: a validated registration submission that resolves (any 2xx
response) shows the success message and schedules the redirect to
`#/board`; one that rejects with message `X` shows
`No se pudo registrar: X` and leaves the route unchanged. -/
theorem register_submit_outcome (res : HttpResponse) (fields : RegisterFields)
    (st : HomeState)
    (hfn : strTrim fields.firstName ≠ "") (hpw : strTrim fields.password ≠ "")
    (hpend : st.pendingHash = none) :
    (res.ok = true →
      (submitHome (fun _ => registerUserOutcome res) fields st).msg =
        "Registro exitoso" ∧
      (submitHome (fun _ => registerUserOutcome res) fields st).pendingHash =
        some "#/board") ∧
    (∀ X, registerUserOutcome res = .error X →
      (submitHome (fun _ => registerUserOutcome res) fields st).msg =
        "No se pudo registrar: " ++ X ∧
      (submitHome (fun _ => registerUserOutcome res) fields st).hash = st.hash ∧
      (submitHome (fun _ => registerUserOutcome res) fields st).pendingHash =
        none) := by
  have hcond : (strTrim fields.firstName = "" || strTrim fields.password = "") = false := by
    simp [hfn, hpw]
  constructor
  · intro hok
    simp [submitHome, RegisterFields.trimAll, hcond, registerUserOutcome, request, hok]
  · intro X hX
    simp [submitHome, RegisterFields.trimAll, hcond, hX, hpend]

/-- Witness for `register_submit_outcome`: a 201 response yields the
success message and the scheduled `#/board` redirect; a 400 response with
`{message: "X"}` yields `No se pudo registrar: X` with the route intact. -/
theorem register_submit_outcome_witness :
    (submitHome
        (fun _ => registerUserOutcome
          { status := 201, contentType := some "application/json",
            jsonResult := some {} })
        { firstName := "Ana", lastName := "l", age := "20", email := "e",
          password := "pw", confirmPassword := "pw" }
        { msg := "", submitDisabled := false, requests := [], hash := "#/home",
          pendingHash := none }).msg = "Registro exitoso" ∧
    (submitHome
        (fun _ => registerUserOutcome
          { status := 201, contentType := some "application/json",
            jsonResult := some {} })
        { firstName := "Ana", lastName := "l", age := "20", email := "e",
          password := "pw", confirmPassword := "pw" }
        { msg := "", submitDisabled := false, requests := [], hash := "#/home",
          pendingHash := none }).pendingHash = some "#/board" ∧
    (submitHome
        (fun _ => registerUserOutcome
          { status := 400, contentType := some "application/json",
            jsonResult := some { message := some "X" } })
        { firstName := "Ana", lastName := "l", age := "20", email := "e",
          password := "pw", confirmPassword := "pw" }
        { msg := "", submitDisabled := false, requests := [], hash := "#/home",
          pendingHash := none }).msg = "No se pudo registrar: X" ∧
    (submitHome
        (fun _ => registerUserOutcome
          { status := 400, contentType := some "application/json",
            jsonResult := some { message := some "X" } })
        { firstName := "Ana", lastName := "l", age := "20", email := "e",
          password := "pw", confirmPassword := "pw" }
        { msg := "", submitDisabled := false, requests := [], hash := "#/home",
          pendingHash := none }).hash = "#/home" ∧
    (submitHome
        (fun _ => registerUserOutcome
          { status := 400, contentType := some "application/json",
            jsonResult := some { message := some "X" } })
        { firstName := "Ana", lastName := "l", age := "20", email := "e",
          password := "pw", confirmPassword := "pw" }
        { msg := "", submitDisabled := false, requests := [], hash := "#/home",
          pendingHash := none }).pendingHash = none := by
  have hok := (register_submit_outcome
    { status := 201, contentType := some "application/json", jsonResult := some {} }
    { firstName := "Ana", lastName := "l", age := "20", email := "e",
      password := "pw", confirmPassword := "pw" }
    { msg := "", submitDisabled := false, requests := [], hash := "#/home",
      pendingHash := none }
    (by decide) (by decide) rfl).1 (by decide)
  have herr := (register_submit_outcome
    { status := 400, contentType := some "application/json",
      jsonResult := some { message := some "X" } }
    { firstName := "Ana", lastName := "l", age := "20", email := "e",
      password := "pw", confirmPassword := "pw" }
    { msg := "", submitDisabled := false, requests := [], hash := "#/home",
      pendingHash := none }
    (by decide) (by decide) rfl).2 "X" (by decide)
  exact ⟨hok.1, hok.2, herr.1, herr.2.1, herr.2.2⟩

/-- A successful `startsWith` check exposes the hash as the prefix followed
by the remaining characters. -/
theorem strStartsWith_data (s pre : String) (h : strStartsWith s pre = true) :
    ∃ t, s.data = pre.data ++ t := by
  have h' : pre.data <+: s.data := by simpa [strStartsWith] using h
  obtain ⟨t, ht⟩ := h'
  exact ⟨t, ht.symm⟩

/-- `resolveView` only ever produces the two known view names. -/
theorem resolveView_home_or_board (hash : String) :
    resolveView hash = "home" ∨ resolveView hash = "board" := by
  unfold resolveView
  split
  · next h =>
    have : requestedView hash = "home" ∨ requestedView hash = "board" := by
      simpa using h
    rcases this with h' | h' <;> simp [h']
  · exact Or.inl rfl

/-- The only hash that resolves to the `board` view is `#/board`. -/
theorem resolveView_eq_board (hash : String) (h : resolveView hash = "board") :
    hash = "#/board" := by
  unfold resolveView at h
  split at h
  · unfold requestedView at h
    split at h
    · simp at h
    · unfold rawPath at h
      split at h
      · next hsw =>
        obtain ⟨t, ht⟩ := strStartsWith_data hash "#/" hsw
        have htdata : (strSlice hash 2).data = t := by
          simp [strSlice, ht]
        have htb : t = "board".data := by
          rw [← htdata, h]
        apply String.ext
        rw [ht, htb]
        rfl
      · simp at h
  · simp at h

/-- C1: `#/home` resolves to `home`, `#/board` to `board`, every other
fragment to `home`; on a successful fetch the container receives exactly
the resolved view's markup and exactly that view's initializer runs. -/
theorem router_single_view (views : String → Option String) (hash html : String)
    (hload : views (resolveView hash) = some html) :
    resolveView "#/home" = "home" ∧ resolveView "#/board" = "board" ∧
    (hash ≠ "#/home" → hash ≠ "#/board" → resolveView hash = "home") ∧
    handleRoute views hash =
      .ok { containerHTML := html,
            ranInitHome := resolveView hash == "home",
            ranInitBoard := resolveView hash == "board" } ∧
    (resolveView hash == "home") = !(resolveView hash == "board") := by
  refine ⟨by decide, by decide, ?_, ?_, ?_⟩
  · intro _ hb
    rcases resolveView_home_or_board hash with h | h
    · exact h
    · exact absurd (resolveView_eq_board hash h) hb
  · simp [handleRoute, loadView, hload]
  · rcases resolveView_home_or_board hash with h | h <;> simp [h]

/-- Witness for `router_single_view`: the unknown fragment `#/unknown`
renders the home markup and runs only the home initializer. -/
theorem router_single_view_witness :
    handleRoute
        (fun n => if n == "home" then some "<h1>H</h1>" else some "<h1>B</h1>")
        "#/unknown" =
      .ok { containerHTML := "<h1>H</h1>", ranInitHome := true,
            ranInitBoard := false } := by
  have h := (router_single_view
    (fun n => if n == "home" then some "<h1>H</h1>" else some "<h1>B</h1>")
    "#/unknown" "<h1>H</h1>" (by decide)).2.2.2.1
  rw [show resolveView "#/unknown" = "home" from by decide] at h
  simpa using h

/-- Entries before an erased index are untouched. -/
theorem getElem?_eraseIdx_lt {α : Type} (l : List α) (i j : Nat) (h : j < i) :
    (l.eraseIdx i)[j]? = l[j]? := by
  induction l generalizing i j with
  | nil => simp [List.eraseIdx]
  | cons a l ih =>
    cases i with
    | zero => omega
    | succ i =>
      cases j with
      | zero => simp [List.eraseIdx]
      | succ j => simpa [List.eraseIdx] using ih i j (by omega)

/-- Entries from an erased index on shift down by one. -/
theorem getElem?_eraseIdx_ge {α : Type} (l : List α) (i j : Nat)
    (hi : i < l.length) (h : i ≤ j) :
    (l.eraseIdx i)[j]? = l[j + 1]? := by
  induction l generalizing i j with
  | nil => simp at hi
  | cons a l ih =>
    cases i with
    | zero => simp [List.eraseIdx]
    | succ i =>
      cases j with
      | zero => omega
      | succ j => simpa [List.eraseIdx] using ih i j (by simpa using hi) (by omega)

/-- C9: a click on item `i`'s remove control deletes exactly that item
(the list shrinks by one, earlier items keep their position, later items
shift down by one); a click on item `i`'s checkbox flips its checked state
and sets its `completed` marker to the new state, leaving every other item
untouched. -/
theorem todo_click (todos : List TodoItem) (i : Nat) (hi : i < todos.length) :
    (clickTodoList todos (.removeBtn i)).length = todos.length - 1 ∧
    (∀ j, j < i → (clickTodoList todos (.removeBtn i))[j]? = todos[j]?) ∧
    (∀ j, i ≤ j → (clickTodoList todos (.removeBtn i))[j]? = todos[j + 1]?) ∧
    (clickTodoList todos (.checkBox i)).length = todos.length ∧
    (clickTodoList todos (.checkBox i))[i]? =
      todos[i]?.map (fun t =>
        { t with checked := !t.checked, completed := !t.checked }) ∧
    (∀ j, j ≠ i → (clickTodoList todos (.checkBox i))[j]? = todos[j]?) := by
  have ht : todos[i]? = some todos[i] := List.getElem?_eq_getElem hi
  refine ⟨?_, ?_, ?_, ?_, ?_, ?_⟩
  · have := List.length_eraseIdx_add_one hi
    simp only [clickTodoList]
    omega
  · intro j hj
    simpa [clickTodoList] using getElem?_eraseIdx_lt todos i j hj
  · intro j hj
    simpa [clickTodoList] using getElem?_eraseIdx_ge todos i j hi hj
  · simp [clickTodoList, ht]
  · simp [clickTodoList, ht, List.getElem?_set_self hi]
  · intro j hj
    simp [clickTodoList, ht, List.getElem?_set_ne (fun he => hj he.symm)]

/-- Witness for `todo_click`: on the three-item list `[a, b, c]`, removing
item 1 keeps `a` at index 0 and moves `c` to index 1; clicking item 1's
checkbox checks and completes `b` while leaving `a` untouched. -/
theorem todo_click_witness :
    (clickTodoList [newTodoItem "a", newTodoItem "b", newTodoItem "c"]
        (.removeBtn 1)).length = 2 ∧
    (clickTodoList [newTodoItem "a", newTodoItem "b", newTodoItem "c"]
        (.removeBtn 1))[0]? = some (newTodoItem "a") ∧
    (clickTodoList [newTodoItem "a", newTodoItem "b", newTodoItem "c"]
        (.removeBtn 1))[1]? = some (newTodoItem "c") ∧
    (clickTodoList [newTodoItem "a", newTodoItem "b", newTodoItem "c"]
        (.checkBox 1))[1]? =
      some { checked := true, completed := true, titleHTML := "b" } ∧
    (clickTodoList [newTodoItem "a", newTodoItem "b", newTodoItem "c"]
        (.checkBox 1))[0]? = some (newTodoItem "a") := by
  have h := todo_click [newTodoItem "a", newTodoItem "b", newTodoItem "c"] 1
    (by decide)
  refine ⟨h.1, ?_, ?_, ?_, ?_⟩
  · simpa [newTodoItem] using h.2.1 0 (by decide)
  · simpa [newTodoItem] using h.2.2.1 1 (by decide)
  · simpa [newTodoItem] using h.2.2.2.2.1
  · simpa [newTodoItem] using h.2.2.2.2.2 0 (by decide)
